import Mathlib

/-!
Shallow embedding of the core of `src/easysnmp/interface.c`: the type
translator (`__translate_appl_type`, `__get_type_str`), the transport-status
classification and no-such-name elision retry loop of `__send_sync_pdu`, the
instance-suffix concatenation (`__concat_oid_str`), the per-response variable
processing shared by `netsnmp_walk` / `netsnmp_bulkwalk`, and the resolution
step of `snmp_op_data_load` as driven by `netsnmp_get` / `netsnmp_set`.

Machine integers are modelled as `Nat` (none of the embedded code paths can
overflow an `unsigned long` on the inputs the theorems quantify over); C
strings are Lean `String`s (no interior NUL arises in the embedded data);
the net-snmp transport is an abstract `agent` function.
-/

namespace EasySnmp

/-! ### Type codes

Numeric values of the wire/type constants, as fixed by the net-snmp public
headers (`parse.h`, `snmp.h`, `snmp_client.h`) that `interface.c` includes,
plus the constants `interface.c` defines itself (`TYPE_UNKNOWN`,
`NO_RETRY_NOSUCH`). -/

def TYPE_OTHER : Nat := 0
def TYPE_OBJID : Nat := 1
def TYPE_OCTETSTR : Nat := 2
def TYPE_INTEGER : Nat := 3
def TYPE_NETADDR : Nat := 4
def TYPE_IPADDR : Nat := 5
def TYPE_COUNTER : Nat := 6
def TYPE_GAUGE : Nat := 7
def TYPE_TIMETICKS : Nat := 8
def TYPE_OPAQUE : Nat := 9
def TYPE_NULL : Nat := 10
def TYPE_COUNTER64 : Nat := 11
def TYPE_BITSTRING : Nat := 12
def TYPE_NSAPADDRESS : Nat := 13
def TYPE_UINTEGER : Nat := 14
def TYPE_UNSIGNED32 : Nat := 15
def TYPE_INTEGER32 : Nat := 16
def TYPE_TRAPTYPE : Nat := 20
def TYPE_NOTIFTYPE : Nat := 21

/-- Constant `TYPE_UNKNOWN`, `#define`d to 0 in `interface.c`. -/
def TYPE_UNKNOWN : Nat := 0

/-- Exception code `SNMP_NOSUCHOBJECT` = `ASN_CONTEXT | ASN_PRIMITIVE | 0x0` = 0x80. -/
def SNMP_NOSUCHOBJECT : Nat := 128
/-- Exception code `SNMP_NOSUCHINSTANCE` = `ASN_CONTEXT | ASN_PRIMITIVE | 0x1` = 0x81. -/
def SNMP_NOSUCHINSTANCE : Nat := 129
/-- Exception code `SNMP_ENDOFMIBVIEW` = `ASN_CONTEXT | ASN_PRIMITIVE | 0x2` = 0x82. -/
def SNMP_ENDOFMIBVIEW : Nat := 130

/-! Transport status codes from `snmp_client.h`, and the PDU error-status
codes from `snmp.h` that the retry loop inspects.  `__send_sync_pdu` reuses
one `int status` variable for both families, exactly as modelled below. -/

def STAT_SUCCESS : Nat := 0
def STAT_ERROR : Nat := 1
def STAT_TIMEOUT : Nat := 2

def SNMP_ERR_NOERROR : Nat := 0
def SNMP_ERR_NOSUCHNAME : Nat := 2

/-- Constant `NO_RETRY_NOSUCH`, `#define`d to 0 in `interface.c`; passed as the
`retry_nosuch` argument of `__send_sync_pdu` by `netsnmp_set`. -/
def NO_RETRY_NOSUCH : Bool := false

/-! ### Type translator -/

/-- Test `strncasecmp(a, b, n) == 0` on NUL-free C strings viewed as char lists:
the comparison walks at most `n` characters, succeeding early when both
strings end together and failing when exactly one ends. -/
def strncasecmpEq : List Char → List Char → Nat → Bool
  | _, _, 0 => true
  | [], [], _ => true
  | [], _ :: _, _ => false
  | _ :: _, [], _ => false
  | a :: as, b :: bs, n + 1 => a.toLower == b.toLower && strncasecmpEq as bs n

/-- Test `strcasecmp(a, b) == 0`: full case-insensitive equality. -/
def strcasecmpEq (a b : List Char) : Bool :=
  a.map Char.toLower == b.map Char.toLower

/-- Function `__translate_appl_type` (`interface.c:230`): textual type specifier to
type code.  A single-character string goes through the `snmpset(1)`-style
switch; longer strings go through the ordered chain of `strncasecmp` /
`strcasecmp` checks; anything unrecognized (and the empty string) yields
`TYPE_UNKNOWN`. -/
def __translate_appl_type (typestr : String) : Nat :=
  match typestr.toList with
  | [] => TYPE_UNKNOWN
  | [c] =>
    if c = 'i' then TYPE_INTEGER
    else if c = 'u' then TYPE_UNSIGNED32
    else if c = 's' then TYPE_OCTETSTR
    else if c = 'n' then TYPE_NULL
    else if c = 'o' then TYPE_OBJID
    else if c = 't' then TYPE_TIMETICKS
    else if c = 'a' then TYPE_IPADDR
    else if c = 'b' then TYPE_BITSTRING
    else TYPE_UNKNOWN
  | cs =>
    if strncasecmpEq cs "INTEGER32".toList 8 then TYPE_INTEGER32
    else if strncasecmpEq cs "INTEGER".toList 3 then TYPE_INTEGER
    else if strncasecmpEq cs "UNSIGNED32".toList 3 then TYPE_UNSIGNED32
    else if strcasecmpEq cs "COUNTER".toList then TYPE_COUNTER
    else if strncasecmpEq cs "GAUGE".toList 3 then TYPE_GAUGE
    else if strncasecmpEq cs "IPADDR".toList 3 then TYPE_IPADDR
    else if strncasecmpEq cs "OCTETSTR".toList 3 then TYPE_OCTETSTR
    else if strncasecmpEq cs "TICKS".toList 3 then TYPE_TIMETICKS
    else if strncasecmpEq cs "OPAQUE".toList 3 then TYPE_OPAQUE
    else if strncasecmpEq cs "OBJECTID".toList 3 then TYPE_OBJID
    else if strncasecmpEq cs "NETADDR".toList 3 then TYPE_NETADDR
    else if strncasecmpEq cs "COUNTER64".toList 3 then TYPE_COUNTER64
    else if strncasecmpEq cs "NULL".toList 3 then TYPE_NULL
    else if strncasecmpEq cs "BITS".toList 3 then TYPE_BITSTRING
    else if strncasecmpEq cs "ENDOFMIBVIEW".toList 3 then SNMP_ENDOFMIBVIEW
    else if strncasecmpEq cs "NOSUCHOBJECT".toList 7 then SNMP_NOSUCHOBJECT
    else if strncasecmpEq cs "NOSUCHINSTANCE".toList 7 then SNMP_NOSUCHINSTANCE
    else if strncasecmpEq cs "UINTEGER".toList 3 then TYPE_UINTEGER
    else if strncasecmpEq cs "NOTIF".toList 3 then TYPE_NOTIFTYPE
    else if strncasecmpEq cs "TRAP".toList 4 then TYPE_TRAPTYPE
    else TYPE_UNKNOWN

/-- Function `__get_type_str` (`interface.c:522`): type code to display name.
`some name` models `SUCCESS` with `str` filled in; `none` models the
default branch, which writes an empty string and returns `FAILURE`. -/
def __get_type_str (t : Nat) : Option String :=
  if t = TYPE_OBJID then some "OBJECTID"
  else if t = TYPE_OCTETSTR then some "OCTETSTR"
  else if t = TYPE_INTEGER then some "INTEGER"
  else if t = TYPE_INTEGER32 then some "INTEGER32"
  else if t = TYPE_UNSIGNED32 then some "UNSIGNED32"
  else if t = TYPE_NETADDR then some "NETADDR"
  else if t = TYPE_IPADDR then some "IPADDR"
  else if t = TYPE_COUNTER then some "COUNTER"
  else if t = TYPE_GAUGE then some "GAUGE"
  else if t = TYPE_TIMETICKS then some "TICKS"
  else if t = TYPE_OPAQUE then some "OPAQUE"
  else if t = TYPE_COUNTER64 then some "COUNTER64"
  else if t = TYPE_NULL then some "NULL"
  else if t = SNMP_ENDOFMIBVIEW then some "ENDOFMIBVIEW"
  else if t = SNMP_NOSUCHOBJECT then some "NOSUCHOBJECT"
  else if t = SNMP_NOSUCHINSTANCE then some "NOSUCHINSTANCE"
  else if t = TYPE_UINTEGER then some "UINTEGER"
  else if t = TYPE_NOTIFTYPE then some "NOTIF"
  else if t = TYPE_BITSTRING then some "BITS"
  else if t = TYPE_TRAPTYPE then some "TRAP"
  else none

/-! ### Transport-status classification (`__send_sync_pdu`, lines 1028-1036)

After `snmp_sess_synch_response` returns, `__send_sync_pdu` first turns a
NULL response with `STAT_SUCCESS` into `STAT_ERROR`, then applies the SNMPv3
timeout correction:

    if (strcmp(err_str, "Timeout") && (status == STAT_ERROR)) {
      status = STAT_TIMEOUT;
    }

`strcmp(...) != 0` means the diagnostic buffer differs from `"Timeout"`. -/

def fixupTransportStatus (response_present : Bool) (err_str : String)
    (status : Nat) : Nat :=
  let status :=
    if response_present = false ∧ status = STAT_SUCCESS then STAT_ERROR
    else status
  if err_str ≠ "Timeout" ∧ status = STAT_ERROR then STAT_TIMEOUT else status

/-! ### No-such-name elision retry loop (`__send_sync_pdu`, lines 1038-1113)

The loop state mirrors the C locals: the outstanding request (as the list of
original batch indices still present, in order), the trail of bit positions
set in the `invalid_oids` bitarray (in marking order), `last_errindex` and
`retry_num`.  The remote agent is an abstract function from the current
request to the PDU error status of its response, standing for the external
`snmp_sess_synch_response` on the `STAT_SUCCESS` path. -/

structure RetryState where
  request : List Nat
  invalid : List Nat
  last_errindex : Nat
  retry_num : Nat
deriving Repr, DecidableEq

/-- Error status of one successfully transported response. -/
inductive ErrStat where
  | noerror : ErrStat
  | nosuchname (errindex : Nat) : ErrStat
  | other (code : Nat) (errindex : Nat) : ErrStat
deriving Repr, DecidableEq

/-- The bit position `__send_sync_pdu` sets in `invalid_oids` for a
`SNMP_ERR_NOSUCHNAME` response reporting `errindex` (lines 1066-1075):
`errindex - 1` when no error index has been seen yet or the new index is
strictly below the last one, and `errindex - 1 + retry_num` otherwise. -/
def markedBit (s : RetryState) (errindex : Nat) : Nat :=
  if s.last_errindex = 0 then errindex - 1
  else if s.last_errindex > errindex then errindex - 1
  else errindex - 1 + s.retry_num

/-- One elision round (lines 1066-1103): set the bit, remember the reported
index, strip the offending entry from the outstanding request
(`snmp_fix_pdu` removes the varbind at 1-based position `errindex`), and
bump `retry_num`. -/
def stepState (s : RetryState) (errindex : Nat) : RetryState :=
  { request := s.request.eraseIdx (errindex - 1)
    invalid := s.invalid ++ [markedBit s errindex]
    last_errindex := errindex
    retry_num := s.retry_num + 1 }

/-- The state after a sequence of reported error indices. -/
def runStates (reports : List Nat) (s : RetryState) : RetryState :=
  reports.foldl stepState s

/-- Error classes surfaced to Python (`PyErr_SetString` targets). -/
inductive PyErr where
  | noSuchName : PyErr
  | genericError (code : Nat) (errindex : Nat) : PyErr
deriving Repr, DecidableEq

/-- Observable outcome of `__send_sync_pdu` on the `STAT_SUCCESS` transport
path: final `status` value; the entries of the response left in `*response`
that the caller will surface as result records — the function never frees
the final response, so this is the echoed/answered request both on the
accepting round and on the empty-fix round, and `[]` on the error exits,
where a nonzero status or a raised exception stops the caller from reading
it; the raised error class if any; the number of request/response exchanges
performed; and the `invalid_oids` marking trail. -/
structure SyncOutcome where
  status : Nat
  results : List Nat
  pyerr : Option PyErr
  exchanges : Nat
  invalid : List Nat
deriving Repr, DecidableEq

/-- The `retry:` loop of `__send_sync_pdu` (lines 1038-1113), fuelled.
On `SNMP_ERR_NOERROR` the call succeeds with the surviving entries; on any
other status except no-such-name a generic error is surfaced; on
no-such-name with `retry_nosuch` set, one elision round runs and the loop
resubmits unless the fixed PDU is empty (`snmp_fix_pdu` returned NULL), in
which case the loop jumps to `done` with `status = STAT_SUCCESS`, leaving
the rejected response — which still echoes the varbinds of the last
(single-entry) request — in `*response` for the caller; on no-such-name without
`retry_nosuch` the `EasySNMPNoSuchNameError` class is raised and the final
status is the PDU error status `SNMP_ERR_NOSUCHNAME`.  `none` models fuel
exhaustion and never arises on in-range agents (see the C4 theorem). -/
def sendSyncLoop (agent : List Nat → ErrStat) (retry_nosuch : Bool) :
    Nat → RetryState → Option SyncOutcome
  | 0, _ => none
  | fuel + 1, s =>
    match agent s.request with
    | .noerror => some ⟨SNMP_ERR_NOERROR, s.request, none, 1, s.invalid⟩
    | .other code eidx => some ⟨code, [], some (.genericError code eidx), 1, s.invalid⟩
    | .nosuchname e =>
      if retry_nosuch then
        let s' := stepState s e
        if s'.request = [] then
          some ⟨STAT_SUCCESS, s.request, none, 1, s'.invalid⟩
        else
          match sendSyncLoop agent retry_nosuch fuel s' with
          | none => none
          | some o => some { o with exchanges := o.exchanges + 1 }
      else
        some ⟨SNMP_ERR_NOSUCHNAME, [], some .noSuchName, 1, s.invalid⟩

/-- Initial loop state for a batch of `n` entries (original indices
`0, …, n-1`), with an empty bitarray, `last_errindex = 0`, `retry_num = 0`. -/
def initState (n : Nat) : RetryState :=
  ⟨List.range n, [], 0, 0⟩

/-- The per-session context fields relevant here (`session_capsule_ctx`). -/
structure SessionCtx where
  retry_nosuch : Bool
deriving Repr, DecidableEq

/-- Send step of `netsnmp_set` (`interface.c:3052`): it always passes the
constant `NO_RETRY_NOSUCH` to `__send_sync_pdu`; the session context is
taken as an argument only to record that its `retry_nosuch` field is not
consulted. -/
def netsnmp_set_send (_ctx : SessionCtx) (agent : List Nat → ErrStat)
    (pdu : List Nat) : Option SyncOutcome :=
  sendSyncLoop agent NO_RETRY_NOSUCH (pdu.length + 1) ⟨pdu, [], 0, 0⟩

/-! ### Instance-suffix concatenation (`__concat_oid_str`, lines 838-865)

`sscanf(cp, "%lu")` succeeds on a token exactly when, after leading spaces,
a digit follows; the array slot is written either way (`(*doid_arr_len)++`),
so a failed conversion leaves the prior (unspecified) slot content, which
we model as `none`. -/

/-- Leading `%lu` conversion: skip spaces, then read a non-empty digit run;
`none` when no digits can be converted. -/
def sscanf_ulu (cs : List Char) : Option Nat :=
  let cs := cs.dropWhile (· = ' ')
  let digits := cs.takeWhile Char.isDigit
  if digits = [] then none
  else some (digits.foldl (fun acc c => acc * 10 + (c.toNat - 48)) 0)

/-- Splitter underlying `strtok_r(buf, ".", …)`: cut at every dot,
collecting the current run. -/
def splitDotsAux : List Char → List Char → List (List Char)
  | [], acc => [acc.reverse]
  | c :: cs, acc =>
    if c = '.' then acc.reverse :: splitDotsAux cs []
    else splitDotsAux cs (c :: acc)

/-- Token stream of `strtok_r(buf, ".", …)`: maximal non-empty runs between
dots (`strtok` never yields an empty token). -/
def strtokDots (cs : List Char) : List (List Char) :=
  (splitDotsAux cs []).filter (· ≠ [])

/-- Function `__concat_oid_str(doid_arr, doid_arr_len, soid_str)`: the array prefix
of length `*doid_arr_len` is `arr`; the result is the new prefix paired with
the C return value (`true` = `SUCCESS`).  An empty instance adds nothing; a
leading dot is stripped; every dot-separated token bumps the length by one,
storing the converted number or leaving the slot unspecified (`none`) when
`sscanf` cannot convert the token.  `strdup` is assumed to succeed (its
failure path is the only `FAILURE` return). -/
def __concat_oid_str (arr : List (Option Nat)) (soid_str : List Char) :
    List (Option Nat) × Bool :=
  if soid_str = [] then (arr, true)
  else
    let s := if soid_str.head? = some '.' then soid_str.tail else soid_str
    (arr ++ (strtokDots s).map sscanf_ulu, true)

/-- The `done:` block of `__tag2oid` (lines 826-831): when an instance
string is present and non-empty, `__concat_oid_str` is applied to the
resolved numeric path, its return value ignored. -/
def tag2oid_append_iid (resolved : List (Option Nat)) (iid : List Char) :
    List (Option Nat) :=
  if iid ≠ [] then (__concat_oid_str resolved iid).1 else resolved

/-! ### Walk / bulk-walk response processing

`netsnmp_walk` (lines 2372-2447) and `netsnmp_bulkwalk` (lines 2800-2874)
share this per-variable loop verbatim: end-of-MIB stops the walk; the two
no-such markers emit a placeholder for the original root and stop; a
returned name shorter than the starting path, or whose first
`oid_arr_len` sub-identifiers differ from it, stops the walk with nothing
emitted; otherwise the variable is emitted and, when it is the last of the
response, its name becomes the OID of the request in the next round. -/

structure SnmpVar where
  name : List Nat
  vtype : Nat
  val : String
deriving Repr, DecidableEq

/-- A result record appended to `result_varlist`; a placeholder (marker
variable) carries the original root and no value. -/
structure WalkRec where
  oid : List Nat
  stype : Nat
  value : Option String
deriving Repr, DecidableEq

/-- What happens after one response: the walk stopped (`notdone = 0`), or it
continues with the next request scoped at `frontier`, or the response held
no variables at all (the loop falls through with no new request built). -/
inductive WalkNext where
  | done : WalkNext
  | next (frontier : List Nat) : WalkNext
  | empty : WalkNext
deriving Repr, DecidableEq

/-- The shared `while (vars)` body, for starting path `root` (the resolved
`oid_arr` entry of length `oid_arr_len`). -/
def processVars (root : List Nat) : List SnmpVar → List WalkRec × WalkNext
  | [] => ([], .empty)
  | v :: rest =>
    if v.vtype = SNMP_ENDOFMIBVIEW then ([], .done)
    else if v.vtype = SNMP_NOSUCHOBJECT ∨ v.vtype = SNMP_NOSUCHINSTANCE then
      ([⟨root, v.vtype, none⟩], .done)
    else if v.name.length < root.length ∨ v.name.take root.length ≠ root then
      ([], .done)
    else
      let r : WalkRec := ⟨v.name, v.vtype, some v.val⟩
      match rest with
      | [] => ([r], .next v.name)
      | _ =>
        let (rs, nx) := processVars root rest
        (r :: rs, nx)

/-- OID of the request `netsnmp_bulkwalk` issues in its second round, given
the starting path and the response of the first round (`snmp_add_null_var(pdu,
vars->name, vars->name_length)` on the last processed variable); `none` when
the first response already ended the walk. -/
def bulkwalkSecondRequest (root : List Nat) (resp : List SnmpVar) :
    Option (List Nat) :=
  match (processVars root resp).2 with
  | .next f => some f
  | _ => none

/-! ### Batch loading (`snmp_op_data_load`, lines 1466-1529)

Each `(oid, oid_index)` pair of the varlist is resolved through `__tag2oid`
before any PDU is built; the first entry whose resolved length is zero
raises `EasySNMPUnknownObjectIDError` and aborts the load, and the caller
(`netsnmp_get`, lines 1936-1947) then returns before any send.  The
resolver is abstract here: `resolve tag iid` is the `oid_arr_len` that
`__tag2oid` leaves for that entry. -/

/-- Error classes raised outside `__send_sync_pdu`. -/
inductive LoadErr where
  | unknownObjectID (tag : String) : LoadErr
deriving Repr, DecidableEq

/-- Function `snmp_op_data_load`: walk the varlist in order; stop at the first entry
resolving to length zero with the unknown-object-id error, otherwise return
all resolved lengths. -/
def snmp_op_data_load (resolve : String → String → Nat) :
    List (String × String) → Except LoadErr (List Nat)
  | [] => .ok []
  | (tag, iid) :: rest =>
    if resolve tag iid = 0 then .error (.unknownObjectID tag)
    else
      match snmp_op_data_load resolve rest with
      | .error e => .error e
      | .ok lens => .ok (resolve tag iid :: lens)

/-- Control flow of `netsnmp_get` around the load: on a load error the call
returns with that error before the send loop runs (zero exchanges); on
success it performs one GET exchange per entry (first component: raised
error, second: number of `send_pdu_request` calls made, counted for the
run in which every exchange is accepted). -/
def netsnmp_get_run (resolve : String → String → Nat)
    (varlist : List (String × String)) : Option LoadErr × Nat :=
  match snmp_op_data_load resolve varlist with
  | .error e => (some e, 0)
  | .ok lens => (none, lens.length)

/-! ## Theorems -/

/-- C1 (counterexample): the claim says a `STAT_ERROR` exchange is finally
classified `Timeout` exactly when the inspected diagnostic string is the
marker `"Timeout"`.  The test in the code is `strcmp(err_str, "Timeout") &&
status == STAT_ERROR`, which fires when the diagnostic *differs* from the
marker: with diagnostic `"Timeout"` the status stays `STAT_ERROR`, and with
any other diagnostic (here the zeroed buffer `""`) it becomes
`STAT_TIMEOUT` — both directions of the claimed equivalence fail. -/
theorem C1_counterexample :
    fixupTransportStatus true "Timeout" STAT_ERROR = STAT_ERROR ∧
      fixupTransportStatus true "" STAT_ERROR = STAT_TIMEOUT := by
  constructor <;> rfl

/-- C1 (amended): for every exchange whose transport status is `STAT_ERROR`,
the final classification is `Timeout` if and only if the diagnostic string
inspected before classification *differs from* the marker `"Timeout"`; when
it equals the marker, the generic `STAT_ERROR` classification is kept. -/
theorem C1_timeout_reclassification (p : Bool) (e : String) :
    fixupTransportStatus p e STAT_ERROR =
      if e = "Timeout" then STAT_ERROR else STAT_TIMEOUT := by
  unfold fixupTransportStatus
  by_cases h : e = "Timeout" <;> simp [h, STAT_ERROR, STAT_SUCCESS, STAT_TIMEOUT]

/-- C2: on a batch of 5 entries where the agent reports error index 1
relative to the current (shrunk) request on every round, the retry loop of
`__send_sync_pdu` terminates after 5 exchanges with overall success status
(the final, rejected response still echoing the last remaining entry,
original index 4), and the bits marked in the invalid-OID mask are, in
order, the five distinct original indices `0,1,2,3,4` — each round marks a
bit no earlier round marked (the trail has no duplicates). -/
theorem C2_ascending_elision_marks_distinct :
    sendSyncLoop (fun _ => ErrStat.nosuchname 1) true 6 (initState 5) =
        some ⟨STAT_SUCCESS, [4], none, 5, [0, 1, 2, 3, 4]⟩ ∧
      ([0, 1, 2, 3, 4] : List Nat).Nodup ∧
      ([0, 1, 2, 3, 4] : List Nat).length = 5 := by
  refine ⟨rfl, by decide, rfl⟩

/-- C3 (counterexample): the claim says that when the new error index `E` is
*not greater* than the last one `L`, the bit `E - 1` is recorded directly.
Run the loop on a 5-entry batch with an agent that reports index 2 while
more than three entries remain: round 1 has `L = 0, E = 2` and marks bit 1;
round 2 has `L = 2, E = 2` — `E` is not greater than `L`, so the claim
predicts bit `E - 1 = 1` again, yet the code takes the ascending branch and
marks `E - 1 + retry_num = 2`: the marking trail is `[1, 2]`, not `[1, 1]`. -/
theorem C3_counterexample :
    (sendSyncLoop (fun req => if req.length ≤ 3 then ErrStat.noerror
        else ErrStat.nosuchname 2) true 6 (initState 5)) =
        some ⟨SNMP_ERR_NOERROR, [0, 3, 4], none, 3, [1, 2]⟩ ∧
      ([1, 2] : List Nat) ≠ [1, 1] := by
  refine ⟨rfl, by decide⟩

/-- C5 (counterexample): the claim says an alphabetic character in the
instance string is a hard failure with no partial appends, in every
resolution mode.  `__concat_oid_str` performs no such check: on the
instance `"0.abc"` (which contains alphabetic characters) it returns
`SUCCESS` and appends one slot per dotted component to the resolved path —
the numeric component `0` is appended, and the unparseable component leaves
an unspecified slot — and `__tag2oid` ignores its return value, so
resolution does not fail. -/
theorem C5_counterexample :
    ("0.abc".toList.any Char.isAlpha = true) ∧
      __concat_oid_str [some 1, some 3] "0.abc".toList =
        ([some 1, some 3, some 0, none], true) ∧
      tag2oid_append_iid [some 1, some 3] "0.abc".toList =
        [some 1, some 3, some 0, none] := by
  refine ⟨by decide, by decide, by decide⟩

/-- C6 (counterexample): the claim says *any* first variable whose name is
shorter than the starting path (or fails the prefix check) ends the walk
with zero emitted records.  The two no-such markers are checked first,
however: a first variable of type `SNMP_NOSUCHOBJECT` whose name (here
`[]`) is shorter than the starting path `[1, 3]` still emits one
placeholder record before the walk stops. -/
theorem C6_counterexample :
    (([] : List Nat).length < ([1, 3] : List Nat).length) ∧
      (processVars [1, 3] [⟨[], SNMP_NOSUCHOBJECT, "v"⟩]).1.length = 1 ∧
      (processVars [1, 3] [⟨[], SNMP_NOSUCHOBJECT, "v"⟩]).2 = .done := by
  refine ⟨by decide, by decide, by decide⟩

/-- C6 (amended): for a single-step walk, if the first response variable is
not one of the two no-such markers (which take precedence and emit a
placeholder) and its name is shorter than the starting path or its prefix
does not equal the starting path, the walk terminates with zero emitted
records and the value carried by the variable (whatever it is) is discarded. -/
theorem C6_walk_out_of_scope (root : List Nat) (v : SnmpVar)
    (rest : List SnmpVar)
    (h1 : v.vtype ≠ SNMP_NOSUCHOBJECT) (h2 : v.vtype ≠ SNMP_NOSUCHINSTANCE)
    (hscope : v.name.length < root.length ∨ v.name.take root.length ≠ root) :
    processVars root (v :: rest) = ([], .done) := by
  by_cases he : v.vtype = SNMP_ENDOFMIBVIEW
  · simp only [processVars]
    rw [if_pos he]
  · simp only [processVars]
    rw [if_neg he, if_neg (not_or.mpr ⟨h1, h2⟩), if_pos hscope]

/-- C6 (witness): a first variable of generic type 5 named `[2]`, against
starting path `[1, 3]`, is out of scope and yields zero records. -/
theorem C6_witness :
    (([2] : List Nat).length < ([1, 3] : List Nat).length ∨
        ([2] : List Nat).take ([1, 3] : List Nat).length ≠ [1, 3]) ∧
      processVars [1, 3] [⟨[2], 5, "x"⟩] = ([], .done) :=
  ⟨Or.inl (by decide),
    C6_walk_out_of_scope [1, 3] ⟨[2], 5, "x"⟩ [] (by decide) (by decide)
      (Or.inl (by decide))⟩

/-- C8: whenever `__get_type_str` succeeds with a (non-empty) display name,
`__translate_appl_type` maps that name back to the original type code. -/
theorem C8_type_name_round_trip (t : Nat) (s : String)
    (h : __get_type_str t = some s) : __translate_appl_type s = t := by
  unfold __get_type_str at h
  by_cases h1 : t = TYPE_OBJID
  case pos => rw [if_pos h1] at h; injection h with hs; subst hs; subst h1; decide
  rw [if_neg h1] at h
  by_cases h2 : t = TYPE_OCTETSTR
  case pos => rw [if_pos h2] at h; injection h with hs; subst hs; subst h2; decide
  rw [if_neg h2] at h
  by_cases h3 : t = TYPE_INTEGER
  case pos => rw [if_pos h3] at h; injection h with hs; subst hs; subst h3; decide
  rw [if_neg h3] at h
  by_cases h4 : t = TYPE_INTEGER32
  case pos => rw [if_pos h4] at h; injection h with hs; subst hs; subst h4; decide
  rw [if_neg h4] at h
  by_cases h5 : t = TYPE_UNSIGNED32
  case pos => rw [if_pos h5] at h; injection h with hs; subst hs; subst h5; decide
  rw [if_neg h5] at h
  by_cases h6 : t = TYPE_NETADDR
  case pos => rw [if_pos h6] at h; injection h with hs; subst hs; subst h6; decide
  rw [if_neg h6] at h
  by_cases h7 : t = TYPE_IPADDR
  case pos => rw [if_pos h7] at h; injection h with hs; subst hs; subst h7; decide
  rw [if_neg h7] at h
  by_cases h8 : t = TYPE_COUNTER
  case pos => rw [if_pos h8] at h; injection h with hs; subst hs; subst h8; decide
  rw [if_neg h8] at h
  by_cases h9 : t = TYPE_GAUGE
  case pos => rw [if_pos h9] at h; injection h with hs; subst hs; subst h9; decide
  rw [if_neg h9] at h
  by_cases h10 : t = TYPE_TIMETICKS
  case pos => rw [if_pos h10] at h; injection h with hs; subst hs; subst h10; decide
  rw [if_neg h10] at h
  by_cases h11 : t = TYPE_OPAQUE
  case pos => rw [if_pos h11] at h; injection h with hs; subst hs; subst h11; decide
  rw [if_neg h11] at h
  by_cases h12 : t = TYPE_COUNTER64
  case pos => rw [if_pos h12] at h; injection h with hs; subst hs; subst h12; decide
  rw [if_neg h12] at h
  by_cases h13 : t = TYPE_NULL
  case pos => rw [if_pos h13] at h; injection h with hs; subst hs; subst h13; decide
  rw [if_neg h13] at h
  by_cases h14 : t = SNMP_ENDOFMIBVIEW
  case pos => rw [if_pos h14] at h; injection h with hs; subst hs; subst h14; decide
  rw [if_neg h14] at h
  by_cases h15 : t = SNMP_NOSUCHOBJECT
  case pos => rw [if_pos h15] at h; injection h with hs; subst hs; subst h15; decide
  rw [if_neg h15] at h
  by_cases h16 : t = SNMP_NOSUCHINSTANCE
  case pos => rw [if_pos h16] at h; injection h with hs; subst hs; subst h16; decide
  rw [if_neg h16] at h
  by_cases h17 : t = TYPE_UINTEGER
  case pos => rw [if_pos h17] at h; injection h with hs; subst hs; subst h17; decide
  rw [if_neg h17] at h
  by_cases h18 : t = TYPE_NOTIFTYPE
  case pos => rw [if_pos h18] at h; injection h with hs; subst hs; subst h18; decide
  rw [if_neg h18] at h
  by_cases h19 : t = TYPE_BITSTRING
  case pos => rw [if_pos h19] at h; injection h with hs; subst hs; subst h19; decide
  rw [if_neg h19] at h
  by_cases h20 : t = TYPE_TRAPTYPE
  case pos => rw [if_pos h20] at h; injection h with hs; subst hs; subst h20; decide
  rw [if_neg h20] at h
  exact Option.noConfusion h

/-- C8 (witness): the round trip at the concrete tag `TYPE_COUNTER`. -/
theorem C8_witness :
    __get_type_str TYPE_COUNTER = some "COUNTER" ∧
      __translate_appl_type "COUNTER" = TYPE_COUNTER :=
  ⟨by decide, C8_type_name_round_trip TYPE_COUNTER "COUNTER" (by decide)⟩

/-- C10: `netsnmp_set` invokes `__send_sync_pdu` with the constant
`NO_RETRY_NOSUCH`, whatever the `retry_nosuch` field of the session says; a
remote no-such-name response therefore raises the `EasySNMPNoSuchNameError`
class after exactly one exchange — the elision retry never runs for a
write, no bit is marked, and the final status is `SNMP_ERR_NOSUCHNAME`. -/
theorem C10_set_never_retries (ctx : SessionCtx) (agent : List Nat → ErrStat)
    (pdu : List Nat) (e : Nat) (h : agent pdu = .nosuchname e) :
    netsnmp_set_send ctx agent pdu =
      some ⟨SNMP_ERR_NOSUCHNAME, [], some .noSuchName, 1, []⟩ := by
  unfold netsnmp_set_send NO_RETRY_NOSUCH
  simp [sendSyncLoop, h]

/-- C10 (witness): even with `retry_nosuch` enabled on the session, a
two-entry SET batch answered with no-such-name surfaces the no-such-name
error after one exchange. -/
theorem C10_witness :
    netsnmp_set_send ⟨true⟩ (fun _ => ErrStat.nosuchname 1) [3, 4] =
      some ⟨SNMP_ERR_NOSUCHNAME, [], some .noSuchName, 1, []⟩ :=
  C10_set_never_retries ⟨true⟩ (fun _ => ErrStat.nosuchname 1) [3, 4] 1 rfl

/-! ### Helper lemmas about the retry-state evolution -/

/-- Folding rounds over the state adds the number of rounds to `retry_num`:
`retry_num` counts exactly the entries already eliminated. -/
theorem runStates_retry_num (es : List Nat) (s : RetryState) :
    (runStates es s).retry_num = s.retry_num + es.length := by
  induction es generalizing s with
  | nil => simp [runStates]
  | cons e es ih =>
    show (runStates es (stepState s e)).retry_num = _
    rw [ih]
    simp [stepState]
    omega

/-- After at least one round of positive (1-based) error indices,
`last_errindex` is positive. -/
theorem runStates_last_pos :
    ∀ (es : List Nat) (s : RetryState), es ≠ [] → (∀ x ∈ es, 1 ≤ x) →
      1 ≤ (runStates es s).last_errindex := by
  intro es
  induction es with
  | nil => intro s h _; exact absurd rfl h
  | cons e es ih =>
    intro s _ hpos
    cases es with
    | nil => exact hpos e (by simp)
    | cons f fs =>
      exact ih (stepState s e) (by simp) fun x hx =>
        hpos x (List.mem_cons_of_mem _ hx)

/-- C3 (amended): on every retry round after the first — the state reached
from the initial state by a non-empty sequence of (1-based, hence positive)
reported error indices — the bit recorded for a new report `e` is `e - 1`
exactly when `e` is *strictly below* the last reported index, and otherwise
(including `e` equal to the last index) it is `e - 1` offset by the retry
count, which equals the number of rounds already performed. -/
theorem C3_error_index_heuristic (n : Nat) (es : List Nat) (e : Nat)
    (hne : es ≠ []) (hpos : ∀ x ∈ es, 1 ≤ x) :
    (runStates es (initState n)).retry_num = es.length ∧
      markedBit (runStates es (initState n)) e =
        (if (runStates es (initState n)).last_errindex > e then e - 1
         else e - 1 + es.length) := by
  have hrn : (runStates es (initState n)).retry_num = es.length := by
    have h := runStates_retry_num es (initState n)
    simpa [initState] using h
  refine ⟨hrn, ?_⟩
  have hlast := runStates_last_pos es (initState n) hne hpos
  unfold markedBit
  rw [if_neg (by omega)]
  by_cases hc : (runStates es (initState n)).last_errindex > e
  · rw [if_pos hc, if_pos hc]
  · rw [if_neg hc, if_neg hc, hrn]

/-- C3 (witness): after one round that reported index 2 on a 5-entry batch,
a second report of index 2 (not greater than the last index) records bit
`2 - 1 + 1 = 2`, per the amended heuristic. -/
theorem C3_witness :
    ([2] : List Nat) ≠ [] ∧ markedBit (runStates [2] (initState 5)) 2 = 2 := by
  refine ⟨by decide, ?_⟩
  have h := (C3_error_index_heuristic 5 [2] 2 (by decide) (by decide)).2
  rw [h]
  decide

/-! ### Helper lemmas for the retry-loop bound -/

/-- One-step unfolding of the retry loop at positive fuel. -/
theorem sendSyncLoop_succ (agent : List Nat → ErrStat) (rn : Bool)
    (fuel : Nat) (s : RetryState) :
    sendSyncLoop agent rn (fuel + 1) s =
      match agent s.request with
      | .noerror => some ⟨SNMP_ERR_NOERROR, s.request, none, 1, s.invalid⟩
      | .other code eidx =>
        some ⟨code, [], some (.genericError code eidx), 1, s.invalid⟩
      | .nosuchname e =>
        if rn then
          if (stepState s e).request = [] then
            some ⟨STAT_SUCCESS, s.request, none, 1, (stepState s e).invalid⟩
          else
            match sendSyncLoop agent rn fuel (stepState s e) with
            | none => none
            | some o => some { o with exchanges := o.exchanges + 1 }
        else some ⟨SNMP_ERR_NOSUCHNAME, [], some .noSuchName, 1, s.invalid⟩ := by
  rfl

/-- With in-range error indices every round strictly shrinks the request,
so fuel `length + 1` suffices and at most `length + 1` exchanges happen. -/
theorem sendSyncLoop_total (agent : List Nat → ErrStat)
    (hin : ∀ req e, req ≠ [] → agent req = .nosuchname e →
      1 ≤ e ∧ e ≤ req.length) :
    ∀ (n : Nat) (s : RetryState), s.request.length ≤ n →
      ∃ o, sendSyncLoop agent true (n + 1) s = some o ∧
        o.exchanges ≤ n + 1 := by
  intro n
  induction n with
  | zero =>
    intro s hs
    have hreq : s.request = [] := List.length_eq_zero.mp (Nat.le_zero.mp hs)
    cases h : agent s.request with
    | noerror =>
      exact ⟨⟨SNMP_ERR_NOERROR, s.request, none, 1, s.invalid⟩,
        by rw [sendSyncLoop_succ, h], le_refl 1⟩
    | other c i =>
      exact ⟨⟨c, [], some (.genericError c i), 1, s.invalid⟩,
        by rw [sendSyncLoop_succ, h], le_refl 1⟩
    | nosuchname e =>
      have hemp : (stepState s e).request = [] := by
        simp [stepState, hreq]
      exact ⟨⟨STAT_SUCCESS, s.request, none, 1, (stepState s e).invalid⟩,
        by rw [sendSyncLoop_succ, h]; simp [hemp], le_refl 1⟩
  | succ n ih =>
    intro s hs
    cases h : agent s.request with
    | noerror =>
      exact ⟨⟨SNMP_ERR_NOERROR, s.request, none, 1, s.invalid⟩,
        by rw [sendSyncLoop_succ, h], by show (1 : Nat) ≤ n + 1 + 1; omega⟩
    | other c i =>
      exact ⟨⟨c, [], some (.genericError c i), 1, s.invalid⟩,
        by rw [sendSyncLoop_succ, h], by show (1 : Nat) ≤ n + 1 + 1; omega⟩
    | nosuchname e =>
      by_cases hemp : (stepState s e).request = []
      · exact ⟨⟨STAT_SUCCESS, s.request, none, 1, (stepState s e).invalid⟩,
          by rw [sendSyncLoop_succ, h]; simp [hemp],
          by show (1 : Nat) ≤ n + 1 + 1; omega⟩
      · have hreqne : s.request ≠ [] := by
          intro hx
          exact hemp (by simp [stepState, hx])
        obtain ⟨he1, he2⟩ := hin s.request e hreqne h
        have hlen : (stepState s e).request.length ≤ n := by
          have herase : (s.request.eraseIdx (e - 1)).length =
              s.request.length - 1 := by
            rw [List.length_eraseIdx s.request (e - 1), if_pos (by omega)]
          simp only [stepState]
          omega
        obtain ⟨o, ho, hoe⟩ := ih (stepState s e) hlen
        refine ⟨{ o with exchanges := o.exchanges + 1 }, ?_, ?_⟩
        · rw [sendSyncLoop_succ, h]
          simp [hemp, ho]
        · show o.exchanges + 1 ≤ n + 1 + 1
          omega

/-- When the agent rejects every request with an in-range no-such-name, the
loop elides every entry: it ends with `STAT_SUCCESS` after exactly one
exchange per original entry, and the response handed back is the final
rejected one, still echoing its single remaining varbind. -/
theorem sendSyncLoop_all_nosuch (agent : List Nat → ErrStat)
    (hin : ∀ req e, req ≠ [] → agent req = .nosuchname e →
      1 ≤ e ∧ e ≤ req.length)
    (hns : ∀ req, req ≠ [] → ∃ e, agent req = .nosuchname e) :
    ∀ (n : Nat) (s : RetryState), s.request.length = n → s.request ≠ [] →
      ∃ o, sendSyncLoop agent true (n + 1) s = some o ∧
        o.status = STAT_SUCCESS ∧ o.results.length = 1 ∧ o.exchanges = n := by
  intro n
  induction n with
  | zero =>
    intro s hlen hne
    exact absurd (List.length_eq_zero.mp hlen) hne
  | succ n ih =>
    intro s hlen hne
    obtain ⟨e, he⟩ := hns s.request hne
    obtain ⟨he1, he2⟩ := hin s.request e hne he
    have hslen : (stepState s e).request.length = n := by
      have herase : (s.request.eraseIdx (e - 1)).length =
          s.request.length - 1 := by
        rw [List.length_eraseIdx s.request (e - 1), if_pos (by omega)]
      simp only [stepState]
      omega
    by_cases hemp : (stepState s e).request = []
    · have hn0 : n = 0 := by
        rw [hemp] at hslen
        simpa using hslen.symm
      refine ⟨⟨STAT_SUCCESS, s.request, none, 1, (stepState s e).invalid⟩,
        ?_, rfl, ?_, ?_⟩
      · rw [sendSyncLoop_succ, he]
        simp [hemp]
      · show s.request.length = 1
        omega
      · show (1 : Nat) = n + 1
        omega
    · obtain ⟨o, ho, h1, h2, h3⟩ := ih (stepState s e) hslen hemp
      refine ⟨{ o with exchanges := o.exchanges + 1 }, ?_, h1, h2, ?_⟩
      · rw [sendSyncLoop_succ, he]
        simp [hemp, ho]
      · show o.exchanges + 1 = n + 1
        omega

/-- C4 (counterexample): the claim says that when the fixed PDU is empty the
call completes with success and *zero result entries*.  On a 1-entry batch
whose agent rejects it, `snmp_fix_pdu` leaves nothing (`NULL`), the loop
returns `STAT_SUCCESS` with no exception — but `*response` is neither freed
nor cleared (lines 1093-1096): it still echoes the rejected varbind, so the
retry-enabled caller reads one result entry, not zero. -/
theorem C4_counterexample :
    sendSyncLoop (fun _ => ErrStat.nosuchname 1) true 2 ⟨[9], [], 0, 0⟩ =
        some ⟨STAT_SUCCESS, [9], none, 1, [0]⟩ ∧
      ([9] : List Nat) ≠ [] := by
  refine ⟨rfl, by decide⟩

/-- C4 (amended): with `retry_nosuch` enabled and the agent reporting
in-range error indices, the no-such-name retry loop of `__send_sync_pdu`
always completes within fuel `N + 1` for a batch of `N` outstanding entries
— at most `N + 1` exchanges, i.e. at most `N` resubmission rounds, since
each round strictly shrinks the request — and when the agent rejects every
(sub)request, every entry is elided and the call completes with
`STAT_SUCCESS`, handing back not zero result entries but exactly one: the
rejected final response, still echoing its single remaining varbind, stays
in `*response` with no exception raised. -/
theorem C4_elision_retry_bounded (agent : List Nat → ErrStat) (s : RetryState)
    (hin : ∀ req e, req ≠ [] → agent req = .nosuchname e →
      1 ≤ e ∧ e ≤ req.length) :
    (∃ o, sendSyncLoop agent true (s.request.length + 1) s = some o ∧
        o.exchanges ≤ s.request.length + 1) ∧
      ((∀ req, req ≠ [] → ∃ e, agent req = .nosuchname e) → s.request ≠ [] →
        ∃ o, sendSyncLoop agent true (s.request.length + 1) s = some o ∧
          o.status = STAT_SUCCESS ∧ o.results.length = 1 ∧
          o.exchanges = s.request.length) :=
  ⟨sendSyncLoop_total agent hin s.request.length s (le_refl _),
    fun hns hne =>
      sendSyncLoop_all_nosuch agent hin hns s.request.length s rfl hne⟩

/-- C4 (witness): a 2-entry batch whose agent always reports error index 1
finishes in 2 exchanges with success status and one echoed result entry. -/
theorem C4_witness :
    ∃ o, sendSyncLoop (fun _ => ErrStat.nosuchname 1) true 3 ⟨[7, 8], [], 0, 0⟩ =
        some o ∧ o.status = STAT_SUCCESS ∧ o.results.length = 1 ∧
      o.exchanges = 2 := by
  have h := (C4_elision_retry_bounded (fun _ => ErrStat.nosuchname 1)
      ⟨[7, 8], [], 0, 0⟩
      (fun req e hne heq => by
        injection heq with hh
        exact ⟨hh ▸ le_refl 1, hh ▸ List.length_pos.mpr hne⟩)).2
    (fun req _ => ⟨1, rfl⟩) (by decide)
  simpa using h

/-- C5 (amended): an alphabetic character in the instance string is never a
hard failure: `__concat_oid_str` reports `SUCCESS` (allocation permitting),
preserves the already-resolved numeric path as a prefix, and `__tag2oid`
applies it to the resolved path with the return value ignored — partial
appends do occur (numeric components are appended, non-numeric components
occupy a slot with unspecified content), in every resolution mode, since
the instance concatenation happens after mode selection. -/
theorem C5_instance_alpha_not_fatal (arr : List (Option Nat)) (cs : List Char)
    (halpha : cs.any Char.isAlpha = true) :
    (__concat_oid_str arr cs).2 = true ∧
      (__concat_oid_str arr cs).1.take arr.length = arr ∧
      tag2oid_append_iid arr cs = (__concat_oid_str arr cs).1 := by
  have hne : cs ≠ [] := by
    intro hx
    subst hx
    simp at halpha
  refine ⟨?_, ?_, ?_⟩
  · unfold __concat_oid_str
    rw [if_neg hne]
  · unfold __concat_oid_str
    rw [if_neg hne]
    exact List.take_left _ _
  · unfold tag2oid_append_iid
    rw [if_pos hne]

/-- C5 (witness): the concatenation succeeds on the all-alphabetic instance
`"abc"`. -/
theorem C5_witness :
    ("abc".toList.any Char.isAlpha = true) ∧
      (__concat_oid_str [some 1] "abc".toList).2 = true ∧
      (__concat_oid_str [some 1] "abc".toList).1.take 1 = [some 1] :=
  ⟨by decide,
    (C5_instance_alpha_not_fatal [some 1] "abc".toList (by decide)).1,
    (C5_instance_alpha_not_fatal [some 1] "abc".toList (by decide)).2.1⟩

/-- One-step unfolding of `processVars` on a non-empty response. -/
theorem processVars_cons (root : List Nat) (v : SnmpVar)
    (rest : List SnmpVar) :
    processVars root (v :: rest) =
      (if v.vtype = SNMP_ENDOFMIBVIEW then ([], .done)
       else if v.vtype = SNMP_NOSUCHOBJECT ∨ v.vtype = SNMP_NOSUCHINSTANCE then
         ([⟨root, v.vtype, none⟩], .done)
       else if v.name.length < root.length ∨ v.name.take root.length ≠ root then
         ([], .done)
       else
         match rest with
         | [] => ([⟨v.name, v.vtype, some v.val⟩], .next v.name)
         | _ =>
           ((⟨v.name, v.vtype, some v.val⟩ : WalkRec) ::
               (processVars root rest).1,
             (processVars root rest).2)) := by
  cases rest <;> rfl

/-- C7: when the first bulk round returns a non-empty response whose
variables are all in scope (correct prefix, no end-of-MIB and no no-such
markers), every variable is emitted as a record and the request of the
second round is scoped from the name of the *last* variable of the response. -/
theorem C7_bulkwalk_frontier_chaining (root : List Nat) (vs : List SnmpVar)
    (hne : vs ≠ [])
    (hok : ∀ v ∈ vs, v.vtype ≠ SNMP_ENDOFMIBVIEW ∧
      v.vtype ≠ SNMP_NOSUCHOBJECT ∧ v.vtype ≠ SNMP_NOSUCHINSTANCE ∧
      root.length ≤ v.name.length ∧ v.name.take root.length = root) :
    ∃ last, vs.getLast? = some last ∧
      processVars root vs =
        (vs.map (fun v => ⟨v.name, v.vtype, some v.val⟩), .next last.name) ∧
      bulkwalkSecondRequest root vs = some last.name := by
  induction vs with
  | nil => exact absurd rfl hne
  | cons v vs ih =>
    obtain ⟨h1, h2, h3, h4, h5⟩ := hok v (List.mem_cons_self v vs)
    have hcond : ¬(v.name.length < root.length ∨
        v.name.take root.length ≠ root) := by
      push_neg
      exact ⟨by omega, h5⟩
    cases vs with
    | nil =>
      have hpv : processVars root [v] =
          ([⟨v.name, v.vtype, some v.val⟩], .next v.name) := by
        rw [processVars_cons, if_neg h1, if_neg (not_or.mpr ⟨h2, h3⟩),
          if_neg hcond]
      refine ⟨v, rfl, by simpa using hpv, ?_⟩
      unfold bulkwalkSecondRequest
      rw [hpv]
    | cons w ws =>
      obtain ⟨last, hl, hp, hb⟩ :=
        ih (by simp) fun u hu => hok u (List.mem_cons_of_mem _ hu)
      have hpv : processVars root (v :: w :: ws) =
          ((v :: w :: ws).map (fun u => ⟨u.name, u.vtype, some u.val⟩),
            .next last.name) := by
        rw [processVars_cons, if_neg h1, if_neg (not_or.mpr ⟨h2, h3⟩),
          if_neg hcond, hp]
        simp
      refine ⟨last, ?_, hpv, ?_⟩
      · rw [List.getLast?_cons_cons]
        exact hl
      · unfold bulkwalkSecondRequest
        rw [hpv]

/-- C7 (witness): a first bulk round returning two in-scope variables under
root `[1, 3]` chains the second request to the name of the second variable,
`[1, 3, 2]`. -/
theorem C7_witness :
    ∃ last,
      ([⟨[1, 3, 1], 2, "a"⟩, ⟨[1, 3, 2], 2, "b"⟩] : List SnmpVar).getLast? =
          some last ∧
        processVars [1, 3] [⟨[1, 3, 1], 2, "a"⟩, ⟨[1, 3, 2], 2, "b"⟩] =
          (([⟨[1, 3, 1], 2, "a"⟩, ⟨[1, 3, 2], 2, "b"⟩] : List SnmpVar).map
              (fun v => ⟨v.name, v.vtype, some v.val⟩),
            .next last.name) ∧
        bulkwalkSecondRequest [1, 3] [⟨[1, 3, 1], 2, "a"⟩, ⟨[1, 3, 2], 2, "b"⟩] =
          some last.name :=
  C7_bulkwalk_frontier_chaining [1, 3]
    [⟨[1, 3, 1], 2, "a"⟩, ⟨[1, 3, 2], 2, "b"⟩] (by decide) (by decide)

/-- C9: whenever some batch entry resolves to a zero-length numeric path,
`netsnmp_get` surfaces an unknown-object-id resolution failure and performs
zero network exchanges — the failure is local, immediate, and fatal for the
call. -/
theorem C9_resolution_failure_local (resolve : String → String → Nat)
    (varlist : List (String × String)) (tag iid : String)
    (hmem : (tag, iid) ∈ varlist) (hfail : resolve tag iid = 0) :
    ∃ t, netsnmp_get_run resolve varlist =
      (some (.unknownObjectID t), 0) := by
  induction varlist with
  | nil => cases hmem
  | cons hd tl ih =>
    obtain ⟨t, i⟩ := hd
    by_cases h0 : resolve t i = 0
    · exact ⟨t, by simp [netsnmp_get_run, snmp_op_data_load, h0]⟩
    · have hmem' : (tag, iid) ∈ tl := by
        rcases List.mem_cons.mp hmem with heq | hm
        · exfalso
          apply h0
          obtain ⟨h1, h2⟩ := Prod.mk.injEq .. ▸ heq
          rw [← h1, ← h2]
          exact hfail
        · exact hm
      obtain ⟨u, hu⟩ := ih hmem'
      refine ⟨u, ?_⟩
      unfold netsnmp_get_run at hu ⊢
      cases hload : snmp_op_data_load resolve tl with
      | error e =>
        rw [hload] at hu
        simp only at hu
        simp [snmp_op_data_load, h0, hload, hu]
      | ok lens =>
        rw [hload] at hu
        simp at hu

/-- C9 (witness): a two-entry batch whose second entry fails to resolve
yields the unknown-object-id error and no exchange at all. -/
theorem C9_witness :
    ∃ t, netsnmp_get_run (fun tg _ => if tg = "bad" then 0 else 5)
        [("good", ""), ("bad", "")] =
      (some (.unknownObjectID t), 0) :=
  C9_resolution_failure_local (fun tg _ => if tg = "bad" then 0 else 5)
    [("good", ""), ("bad", "")] "bad" "" (by simp) (by simp)

end EasySnmp
